import Mathlib

/-!
Verification of the job-recommendation backend's core matching engine.

The definitions below are a shallow embedding of the repository's code:

* `app/routers/recommendations.py`, `POST ""` handler `get_recommendations`
  (the rule-based match scorer and the recommendation orchestrator);
* `app/ml_service.py`, `MLService.create_user_profile_text`
  (the user-profile text synthesizer).

Modelling conventions:

* Python strings are Lean `String`s; `str.lower`, `str.strip`, the `in`
  substring test and `str.title` are re-implemented on the underlying
  character lists (`pyLower`, `pyStrip`, `strIn`, `pyTitleCase`) because the
  inputs of interest are ASCII and the list forms reduce inside the kernel.
* Nullable columns / optional dict entries are `Option`s; Python truthiness
  of a string is `pyTruthy` (non-empty), of a list `!·.isEmpty`, of an
  integer `· ≠ 0`.
* `datetime` arithmetic is pre-reduced at the boundary: a job carries
  `days_old`, the value of `(datetime.utcnow() - job.created_at).days`,
  as `Option Int` (`none` when `created_at` is null).
* The database is an external collaborator: `get_recommendations` takes a
  user lookup function and the already-fetched candidate pool (the result
  of the last-60-days / limit-500 query) as arguments.
* Python's `set(a) & set(b)` is modelled as `(a.filter (· ∈ b)).dedup`,
  which has the same cardinality and the same membership; the (hash-order
  dependent) enumeration used inside one reason string is replaced by this
  deterministic enumeration.
* `list.sort(key=..., reverse=True)` is a stable descending sort; it is
  modelled by a stable insertion sort on the same key.
* `min(int((score / 150) * 100), 100)` is modelled as
  `min (score * 100 / 150) 100` over `Nat`.  The float expression and the
  exact floor agree on every score the scorer can produce: they differ only
  at integers such as 87 whose residue mod 5 is not 0 or 3, and every rule
  weight except the remote bonus (+8) is a multiple of 5, so reachable
  scores have residue 0 or 3 (see `score_mod_five`).
-/

namespace JobRec

/-- ASCII model of Python `str.lower()`. -/
def pyLower (s : String) : String := ⟨s.data.map Char.toLower⟩

/-- Drop whitespace from both ends of a character list. -/
def trimChars (l : List Char) : List Char :=
  ((l.dropWhile Char.isWhitespace).reverse.dropWhile Char.isWhitespace).reverse

/-- Model of Python `str.strip()`. -/
def pyStrip (s : String) : String := ⟨trimChars s.data⟩

/-- Python string truthiness: a string is truthy iff non-empty. -/
def pyTruthy (s : String) : Bool := !s.data.isEmpty

/-- Substring search on character lists: does `needle` occur inside `hay`?
Mirrors Python's `needle in hay` (an empty needle always occurs). -/
def containsSub : List Char → List Char → Bool
  | [], needle => needle.isEmpty
  | hay@(_ :: t), needle => needle.isPrefixOf hay || containsSub t needle

/-- Model of Python `needle in hay` on strings. -/
def strIn (needle hay : String) : Bool := containsSub hay.data needle.data

/-- Helper for `pyTitleCase`: the Bool records whether the previous
character was alphabetic. -/
def titleCaseAux : Bool → List Char → List Char
  | _, [] => []
  | prevAlpha, c :: t =>
    (if c.isAlpha then (if prevAlpha then c.toLower else c.toUpper) else c)
      :: titleCaseAux c.isAlpha t

/-- ASCII model of Python `str.title()`: a letter is uppercased when it
follows a non-letter and lowercased otherwise. -/
def pyTitleCase (s : String) : String := ⟨titleCaseAux false s.data⟩

/-- A job posting, restricted to the columns the matching engine reads
(`app/models.py`, table `jobs`).  `days_old` is the pre-computed posting
age `(datetime.utcnow() - job.created_at).days`. -/
structure Job where
  id : String
  title : String
  company : String
  location : Option String
  description : Option String
  skills : Option (List String)
  job_type : Option String
  experience_level : Option String
  remote : Bool
  days_old : Option Int
  deriving DecidableEq, Repr

/-- A user profile, restricted to the columns the engine reads
(`app/models.py`, table `users`). -/
structure User where
  skills : Option (List String)
  preferred_job_titles : Option (List String)
  preferred_locations : Option (List String)
  experience_level : Option String
  experience_years : Option Int
  preferred_job_type : Option String
  resume_text : Option String
  resume_embedding : Option (List Int)
  deriving DecidableEq, Repr

/-- `[s.lower().strip() for s in (user.skills or [])]` (line 56). -/
def userSkillsNorm (user : User) : List String :=
  (user.skills.getD []).map (fun s => pyStrip (pyLower s))

/-- `[t.lower().strip() for t in (user.preferred_job_titles or [])]` (line 57). -/
def userTitlesNorm (user : User) : List String :=
  (user.preferred_job_titles.getD []).map (fun s => pyStrip (pyLower s))

/-- `[loc.lower().strip() for loc in (user.preferred_locations or [])]` (line 58). -/
def userLocationsNorm (user : User) : List String :=
  (user.preferred_locations.getD []).map (fun s => pyStrip (pyLower s))

/-- `(user.experience_level or "").lower()` (line 59). -/
def userExpLevelNorm (user : User) : String :=
  pyLower (user.experience_level.getD "")

/-- `[s.lower().strip() for s in (job.skills or [])]` (line 113). -/
def jobSkillsLower (job : Job) : List String :=
  (job.skills.getD []).map (fun s => pyStrip (pyLower s))

/-- `matching_skills = set(user_skills) & set(job_skills_lower)` (line 118),
as a deterministic duplicate-free list with the same membership. -/
def matchingSkills (userSkills : List String) (job : Job) : List String :=
  (userSkills.filter (fun s => (jobSkillsLower job).contains s)).dedup

/-- `[skill for skill in user_skills if skill in job_title_lower]` (line 121).
Note: no exclusion of skills already in `matching_skills`. -/
def skillsInTitle (userSkills : List String) (job : Job) : List String :=
  userSkills.filter (fun s => strIn s (pyLower job.title))

/-- `[skill for skill in user_skills if skill in job_description_lower and
skill not in matching_skills]` (line 122). -/
def skillsInDescription (userSkills : List String) (job : Job) : List String :=
  userSkills.filter (fun s =>
    strIn s (pyLower (job.description.getD "")) &&
      !((matchingSkills userSkills job).contains s))

/-- Scoring state threaded through the rule blocks: accumulated score and
reason list. -/
abbrev ScoreAcc := Nat × List String

/-- Reason string of rule 1 (line 128). -/
def skillReasonStr (userSkills : List String) (job : Job) : String :=
  let ms := matchingSkills userSkills job
  let n := ms.length
  let listed := String.intercalate ", " (ms.take 3)
  s!"✓ Matches {n} skills: {listed}"

/-- Reason string of rule 1b (line 134): lists at most two skills. -/
def titleSkillReasonStr (userSkills : List String) (job : Job) : String :=
  let listed := String.intercalate ", " ((skillsInTitle userSkills job).take 2)
  s!"✓ Skills in job title: {listed}"

/-- Reason string of rule 1c (line 140). -/
def descReasonStr (userSkills : List String) (job : Job) : String :=
  let listed := String.intercalate ", " ((skillsInDescription userSkills job).take 2)
  s!"✓ Skills in description: {listed}"

/-- Reason string of rule 2 (line 148). -/
def prefTitleReasonStr (t : String) : String :=
  let tt := pyTitleCase t
  s!"✓ Job title match: {tt}"

/-- Reason string of rule 3 (line 158). -/
def prefLocReasonStr (l : String) : String :=
  let lt := pyTitleCase l
  s!"✓ Location: {lt}"

/-- Reason string of rule 4 (line 166), showing the job's original-case
experience level. -/
def expReasonStr (job : Job) : String :=
  let e := job.experience_level.getD ""
  s!"✓ Experience level: {e}"

/-- Reason string of rule 5 (line 173). -/
def recencyReason (d : Int) : String :=
  s!"✓ Posted {d} day" ++ (if d ≠ 1 then "s" else "") ++ " ago"

/-- Reason string of rule 6 (line 180). -/
def remoteReasonStr : String := "✓ Remote work available"

/-- Rule 1 (lines 124-129): +25 per skill in both skill sets. -/
def applySkillMatch (userSkills : List String) (job : Job) (acc : ScoreAcc) : ScoreAcc :=
  let ms := matchingSkills userSkills job
  if ms.isEmpty then acc
  else (acc.1 + ms.length * 25, acc.2 ++ [skillReasonStr userSkills job])

/-- Rule 1b (lines 131-135): +15 per user skill occurring in the job title. -/
def applyTitleSkills (userSkills : List String) (job : Job) (acc : ScoreAcc) : ScoreAcc :=
  let st := skillsInTitle userSkills job
  if st.isEmpty then acc
  else (acc.1 + st.length * 15, acc.2 ++ [titleSkillReasonStr userSkills job])

/-- Rule 1c (lines 137-141): +5 per user skill occurring in the description
(and not in the skill-set intersection), only when fewer than two reasons
have accumulated. -/
def applyDescSkills (userSkills : List String) (job : Job) (acc : ScoreAcc) : ScoreAcc :=
  let sd := skillsInDescription userSkills job
  if !sd.isEmpty && acc.2.length < 2 then
    (acc.1 + sd.length * 5, acc.2 ++ [descReasonStr userSkills job])
  else acc

/-- The first preferred title that is a substring of the job title
(the loop with `break` of lines 145-149). -/
def prefTitleHit (userTitles : List String) (job : Job) : Option String :=
  userTitles.find? (fun t => strIn t (pyLower job.title))

/-- The first preferred location that is a substring of the job location
(the loop with `break` of lines 155-159). -/
def prefLocHit (userLocations : List String) (job : Job) : Option String :=
  userLocations.find? (fun l => strIn l (pyLower (job.location.getD "")))

/-- Rule 2 (lines 144-149): +30 once if some preferred title is a substring
of the job title (first match wins). -/
def applyPrefTitle (userTitles : List String) (job : Job) (acc : ScoreAcc) : ScoreAcc :=
  match prefTitleHit userTitles job with
  | some t => (acc.1 + 30, acc.2 ++ [prefTitleReasonStr t])
  | none => acc

/-- Rule 3 (lines 152-159): +20 once if some preferred location is a
substring of the job location. -/
def applyPrefLocation (userLocations : List String) (job : Job) (acc : ScoreAcc) : ScoreAcc :=
  match prefLocHit userLocations job with
  | some l => (acc.1 + 20, acc.2 ++ [prefLocReasonStr l])
  | none => acc

/-- Rule 4 condition (lines 162-164): both experience levels truthy and one
a substring of the other (case-insensitively). -/
def expCond (userExpLevel : String) (job : Job) : Bool :=
  match job.experience_level with
  | some e =>
    pyTruthy userExpLevel && pyTruthy e &&
      (strIn userExpLevel (pyLower e) || strIn (pyLower e) userExpLevel)
  | none => false

/-- Rule 4 (lines 162-166): +15 for an experience-level cross-substring match. -/
def applyExperience (userExpLevel : String) (job : Job) (acc : ScoreAcc) : ScoreAcc :=
  if expCond userExpLevel job then (acc.1 + 15, acc.2 ++ [expReasonStr job])
  else acc

/-- Rule 5 (lines 169-175): +10 with reason when at most 7 days old, +5
without reason when at most 14 days old. -/
def applyRecency (job : Job) (acc : ScoreAcc) : ScoreAcc :=
  match job.days_old with
  | some d =>
    if d ≤ 7 then (acc.1 + 10, acc.2 ++ [recencyReason d])
    else if d ≤ 14 then (acc.1 + 5, acc.2)
    else acc
  | none => acc

/-- Rule 6 (lines 178-180): +8 for remote work. -/
def applyRemote (job : Job) (acc : ScoreAcc) : ScoreAcc :=
  if job.remote then (acc.1 + 8, acc.2 ++ [remoteReasonStr])
  else acc

/-- The whole scoring loop body (lines 109-180): the six rule blocks applied
in source order, starting from score 0 and no reasons. -/
def scoreJob (userSkills userTitles userLocations : List String)
    (userExpLevel : String) (job : Job) : ScoreAcc :=
  applyRemote job
    (applyRecency job
      (applyExperience userExpLevel job
        (applyPrefLocation userLocations job
          (applyPrefTitle userTitles job
            (applyDescSkills userSkills job
              (applyTitleSkills userSkills job
                (applySkillMatch userSkills job (0, []))))))))

/-- Number of reasons accumulated before the description rule runs: one
for rule 1 if it fired, one for rule 1b if it fired. -/
def reasonsBeforeDesc (userSkills : List String) (job : Job) : Nat :=
  (if (matchingSkills userSkills job).isEmpty then 0 else 1) +
    (if (skillsInTitle userSkills job).isEmpty then 0 else 1)

/-- Closed form of the guard of rule 1c (line 137). -/
def descCond (userSkills : List String) (job : Job) : Bool :=
  !(skillsInDescription userSkills job).isEmpty && reasonsBeforeDesc userSkills job < 2

/-- Closed form of the recency points (lines 169-175). -/
def recencyScore (job : Job) : Nat :=
  match job.days_old with
  | some d => if d ≤ 7 then 10 else if d ≤ 14 then 5 else 0
  | none => 0

/-- Closed form of the total score: the sum of the eight rule
contributions.  `scoreJob_eq` proves the loop body computes exactly this. -/
def ruleScore (userSkills userTitles userLocations : List String)
    (userExpLevel : String) (job : Job) : Nat :=
  (matchingSkills userSkills job).length * 25 +
    (skillsInTitle userSkills job).length * 15 +
    (if descCond userSkills job then (skillsInDescription userSkills job).length * 5 else 0) +
    (if (prefTitleHit userTitles job).isSome then 30 else 0) +
    (if (prefLocHit userLocations job).isSome then 20 else 0) +
    (if expCond userExpLevel job then 15 else 0) +
    recencyScore job +
    (if job.remote then 8 else 0)

/-- Closed form of the accumulated reason list, in rule-evaluation order. -/
def ruleReasons (userSkills userTitles userLocations : List String)
    (userExpLevel : String) (job : Job) : List String :=
  (if (matchingSkills userSkills job).isEmpty then [] else [skillReasonStr userSkills job]) ++
    (if (skillsInTitle userSkills job).isEmpty then [] else [titleSkillReasonStr userSkills job]) ++
    (if descCond userSkills job then [descReasonStr userSkills job] else []) ++
    (match prefTitleHit userTitles job with
     | some t => [prefTitleReasonStr t]
     | none => []) ++
    (match prefLocHit userLocations job with
     | some l => [prefLocReasonStr l]
     | none => []) ++
    (if expCond userExpLevel job then [expReasonStr job] else []) ++
    (match job.days_old with
     | some d => if d ≤ 7 then [recencyReason d] else []
     | none => []) ++
    (if job.remote then [remoteReasonStr] else [])

/-- The eight candidate reason strings in rule-evaluation order (rules that
did not fire carry a placeholder payload; their entries simply never occur
in the emitted list). -/
def allReasons (userSkills userTitles userLocations : List String)
    (_userExpLevel : String) (job : Job) : List String :=
  [skillReasonStr userSkills job,
   titleSkillReasonStr userSkills job,
   descReasonStr userSkills job,
   prefTitleReasonStr ((prefTitleHit userTitles job).getD ""),
   prefLocReasonStr ((prefLocHit userLocations job).getD ""),
   expReasonStr job,
   recencyReason (job.days_old.getD 0),
   remoteReasonStr]

/-- `min(int((score / 150) * 100), 100)` (line 204), as the exact floor;
see the header notes for why this matches the float expression on every
reachable score. -/
def matchPercentage (score : Nat) : Nat := min (score * 100 / 150) 100

/-- One entry of the `recommendations` response array (lines 184-206).
The nested job payload re-renders fields of the scored job verbatim
(with cosmetic formatting no claim concerns), so it is kept as the `Job`
itself. -/
structure RecEntry where
  job : Job
  match_score : Nat
  match_percentage : Nat
  match_reasons : List String
  deriving DecidableEq, Repr

/-- The scored-and-filtered list built by the loop (lines 108-206):
one entry per candidate job whose score reaches 10, in candidate order. -/
def scoredJobs (userSkills userTitles userLocations : List String)
    (userExpLevel : String) (jobs : List Job) : List RecEntry :=
  jobs.filterMap (fun job =>
    let r := scoreJob userSkills userTitles userLocations userExpLevel job
    if 10 ≤ r.1 then
      some ⟨job, r.1, matchPercentage r.1, r.2.take 4⟩
    else none)

/-- Insert an entry into a list sorted descending by `match_score`,
after any entry with a score at least as large. -/
def insertByScore (x : RecEntry) : List RecEntry → List RecEntry
  | [] => [x]
  | y :: ys =>
    if y.match_score ≤ x.match_score then x :: y :: ys
    else y :: insertByScore x ys

/-- `recommendations.sort(key=lambda x: x["match_score"], reverse=True)`
(line 209): a stable descending sort by score, modelled by stable
insertion sort. -/
def sortByScoreDesc : List RecEntry → List RecEntry
  | [] => []
  | x :: xs => insertByScore x (sortByScoreDesc xs)

/-- The request body (`app/schemas.py`, `RecommendationQuery`).  The
similarity-only fields (`min_score`, `job_type`, `location`,
`remote_only`) are never read by this endpoint and are omitted. -/
structure RecommendationQuery where
  query : Option String
  user_id : Option String
  limit : Nat
  deriving DecidableEq, Repr

/-- The `user_profile` object of a successful response (lines 70-74 /
95-99 / 220-225).  The first two return sites omit the
`experience_level` key, modelled by `none`. -/
structure UserProfileOut where
  skills : List String
  job_titles : List String
  locations : List String
  experience_level : Option String
  deriving DecidableEq, Repr

/-- Outcome of the endpoint: an `HTTPException` or a successful payload. -/
inductive RecResponse where
  | httpError (status : Nat) (detail : String)
  | ok (user_id : String) (user_profile : UserProfileOut)
      (recommendations : List RecEntry) (total_matches : Nat) (message : String)
  deriving DecidableEq, Repr

/-- The `POST ""` handler `get_recommendations` (lines 22-229).  `findUser`
models the user lookup by id; `recentJobs` is the candidate pool the
handler fetched (last-60-days window, capped at 500) from the storage
collaborator. -/
def get_recommendations (q : RecommendationQuery)
    (findUser : String → Option User) (recentJobs : List Job) : RecResponse :=
  match q.user_id with
  | none => .httpError 400 "user_id is required"
  | some uid =>
    match findUser uid with
    | none => .httpError 404 "User not found"
    | some user =>
      let userSkills := userSkillsNorm user
      let userTitles := userTitlesNorm user
      let userLocations := userLocationsNorm user
      let userExpLevel := userExpLevelNorm user
      if userSkills.isEmpty && userTitles.isEmpty && userLocations.isEmpty then
        .ok uid ⟨[], [], [], none⟩ [] 0
          "Please complete your profile with skills, job titles, and preferred locations."
      else if recentJobs.isEmpty then
        .ok uid ⟨userSkills, userTitles, userLocations, none⟩ [] 0
          "No jobs available. Database needs to be populated."
      else
        let recommendations :=
          (sortByScoreDesc
            (scoredJobs userSkills userTitles userLocations userExpLevel recentJobs)).take
            q.limit
        let n := recommendations.length
        .ok uid ⟨userSkills, userTitles, userLocations, some userExpLevel⟩
          recommendations n
          (if recommendations.isEmpty then
            "No matching jobs found. Try updating your preferences."
          else s!"Found {n} jobs matching your profile")

/-- Python `" ".join(parts)`. -/
def joinSpace : List String → String
  | [] => ""
  | p :: ps => ps.foldl (fun acc x => acc ++ " " ++ x) p

/-- The parts list assembled by `MLService.create_user_profile_text`
(`app/ml_service.py`, lines 159-196).  Each block appends its segment only
when the dict entry is truthy (`if user_data.get(...)`): a missing key,
`None`, an empty list/string, and the integer 0 are all skipped. -/
def userProfileParts (u : User) : List String :=
  (match u.skills with
   | some skills => if !skills.isEmpty then
      let listed := String.intercalate ", " skills
      [s!"Skills: {listed}"] else []
   | none => []) ++
  (match u.experience_years with
   | some n => if n ≠ 0 then [s!"Experience: {n} years"] else []
   | none => []) ++
  (match u.preferred_job_type with
   | some t => if pyTruthy t then [s!"Looking for: {t}"] else []
   | none => []) ++
  (match u.preferred_locations with
   | some locs => if !locs.isEmpty then
      let listed := String.intercalate ", " locs
      [s!"Preferred locations: {listed}"] else []
   | none => []) ++
  (match u.resume_text with
   | some r => if pyTruthy r then [(⟨r.data.take 1000⟩ : String)] else []
   | none => [])

/-- `MLService.create_user_profile_text`: the truthy segments joined by
single spaces. -/
def create_user_profile_text (u : User) : String :=
  joinSpace (userProfileParts u)

/-! Concrete fixtures used by the scenario theorems, counterexamples and
witnesses. -/

/-- The job of the spec's scoring scenario: skills python/django, title
"Python Engineer", remote, posted 2 days ago. -/
def jobPy : Job :=
  { id := "j1", title := "Python Engineer", company := "Acme",
    location := none, description := none, skills := some ["python", "django"],
    job_type := none, experience_level := none, remote := true, days_old := some 2 }

/-- The user of the spec's scoring scenario: skills python/sql, no title or
location preferences. -/
def userPy : User :=
  { skills := some ["python", "sql"], preferred_job_titles := none,
    preferred_locations := none, experience_level := none, experience_years := none,
    preferred_job_type := none, resume_text := none, resume_embedding := none }

/-- A job whose declared skill list and title both mention "python". -/
def jobTitleOverlap : Job :=
  { id := "j2", title := "Python Engineer", company := "Beta", location := none,
    description := none, skills := some ["python"], job_type := none,
    experience_level := none, remote := false, days_old := none }

/-- A job titled "JavaScript Developer" whose declared skills share nothing
with the user skill "java". -/
def jobJS : Job :=
  { id := "j3", title := "JavaScript Developer", company := "Gamma", location := none,
    description := none, skills := some ["typescript"], job_type := none,
    experience_level := none, remote := false, days_old := none }

/-- A job giving no signal at all against the skill "python": disjoint
title, no skills, no location/description/experience, stale, on-site. -/
def jobNone : Job :=
  { id := "j4", title := "Accountant", company := "Delta", location := none,
    description := none, skills := none, job_type := none,
    experience_level := none, remote := false, days_old := some 30 }

/-- An existing user with empty skills, titles and locations, and no resume
embedding. -/
def userEmpty : User :=
  { skills := none, preferred_job_titles := none, preferred_locations := none,
    experience_level := none, experience_years := none, preferred_job_type := none,
    resume_text := none, resume_embedding := none }

/-- A user whose experience-years field is present with value 0. -/
def userExp0 : User :=
  { skills := some ["python"], preferred_job_titles := none,
    preferred_locations := none, experience_level := none,
    experience_years := some 0, preferred_job_type := none,
    resume_text := none, resume_embedding := none }

/-- A user whose experience-years field is present with value 5. -/
def userExp5 : User :=
  { skills := some ["python"], preferred_job_titles := none,
    preferred_locations := none, experience_level := none,
    experience_years := some 5, preferred_job_type := none,
    resume_text := none, resume_embedding := none }

/-- User lookup fixture: id "u1" is `userPy`, id "u2" is `userEmpty`. -/
def findUserEg (uid : String) : Option User :=
  if uid = "u1" then some userPy else if uid = "u2" then some userEmpty else none

/-- Request for user "u1" with limit 1. -/
def qLimit1 : RecommendationQuery := { query := none, user_id := some "u1", limit := 1 }

/-- Request for user "u1" with limit 10. -/
def qLimit10 : RecommendationQuery := { query := none, user_id := some "u1", limit := 10 }

/-- Request for the empty-profile user "u2". -/
def qEmptyUser : RecommendationQuery := { query := none, user_id := some "u2", limit := 10 }

/-- Request for an id no user has. -/
def qBadUser : RecommendationQuery := { query := none, user_id := some "nobody", limit := 10 }

/-- The response entry produced for `userPy` against `jobPy`. -/
def entryPy : RecEntry :=
  { job := jobPy, match_score := 58, match_percentage := 38,
    match_reasons := ["✓ Matches 1 skills: python", "✓ Skills in job title: python",
                      "✓ Posted 2 days ago", "✓ Remote work available"] }

/-- The profile object reported for `userPy`. -/
def profPy : UserProfileOut :=
  { skills := ["python", "sql"], job_titles := [], locations := [],
    experience_level := some "" }

end JobRec

namespace JobRec

theorem applySkillMatch_eq (us : List String) (j : Job) (acc : ScoreAcc) :
    applySkillMatch us j acc =
      (acc.1 + (matchingSkills us j).length * 25,
       acc.2 ++ (if (matchingSkills us j).isEmpty then [] else [skillReasonStr us j])) := by
  unfold applySkillMatch
  cases h : (matchingSkills us j).isEmpty
  · simp [h]
  · simp [h, List.isEmpty_iff.mp h]

theorem applyTitleSkills_eq (us : List String) (j : Job) (acc : ScoreAcc) :
    applyTitleSkills us j acc =
      (acc.1 + (skillsInTitle us j).length * 15,
       acc.2 ++ (if (skillsInTitle us j).isEmpty then [] else [titleSkillReasonStr us j])) := by
  unfold applyTitleSkills
  cases h : (skillsInTitle us j).isEmpty
  · simp [h]
  · simp [h, List.isEmpty_iff.mp h]

theorem applyDescSkills_eq (us : List String) (j : Job) (acc : ScoreAcc) :
    applyDescSkills us j acc =
      (acc.1 +
        (if !(skillsInDescription us j).isEmpty && acc.2.length < 2 then
          (skillsInDescription us j).length * 5 else 0),
       acc.2 ++
        (if !(skillsInDescription us j).isEmpty && acc.2.length < 2 then
          [descReasonStr us j] else [])) := by
  unfold applyDescSkills
  split
  · simp_all
  · simp_all

theorem applyPrefTitle_eq (ut : List String) (j : Job) (acc : ScoreAcc) :
    applyPrefTitle ut j acc =
      (acc.1 + (if (prefTitleHit ut j).isSome then 30 else 0),
       acc.2 ++ (match prefTitleHit ut j with
         | some t => [prefTitleReasonStr t]
         | none => [])) := by
  unfold applyPrefTitle
  cases h : prefTitleHit ut j <;> simp [h]

theorem applyPrefLocation_eq (ul : List String) (j : Job) (acc : ScoreAcc) :
    applyPrefLocation ul j acc =
      (acc.1 + (if (prefLocHit ul j).isSome then 20 else 0),
       acc.2 ++ (match prefLocHit ul j with
         | some l => [prefLocReasonStr l]
         | none => [])) := by
  unfold applyPrefLocation
  cases h : prefLocHit ul j <;> simp [h]

theorem applyExperience_eq (ue : String) (j : Job) (acc : ScoreAcc) :
    applyExperience ue j acc =
      (acc.1 + (if expCond ue j then 15 else 0),
       acc.2 ++ (if expCond ue j then [expReasonStr j] else [])) := by
  unfold applyExperience
  cases h : expCond ue j <;> simp [h]

theorem applyRecency_eq (j : Job) (acc : ScoreAcc) :
    applyRecency j acc =
      (acc.1 + recencyScore j,
       acc.2 ++ (match j.days_old with
         | some d => if d ≤ 7 then [recencyReason d] else []
         | none => [])) := by
  unfold applyRecency recencyScore
  cases h : j.days_old with
  | none => simp
  | some d =>
    by_cases h7 : d ≤ 7
    · simp [h7]
    · by_cases h14 : d ≤ 14 <;> simp [h7, h14]

theorem applyRemote_eq (j : Job) (acc : ScoreAcc) :
    applyRemote j acc =
      (acc.1 + (if j.remote then 8 else 0),
       acc.2 ++ (if j.remote then [remoteReasonStr] else [])) := by
  unfold applyRemote
  cases h : j.remote <;> simp [h]

/-- The sequential loop body computes exactly the closed-form score and the
closed-form reason list. -/
theorem scoreJob_eq (us ut ul : List String) (ue : String) (j : Job) :
    scoreJob us ut ul ue j = (ruleScore us ut ul ue j, ruleReasons us ut ul ue j) := by
  unfold scoreJob ruleScore ruleReasons descCond reasonsBeforeDesc
  rw [applySkillMatch_eq, applyTitleSkills_eq, applyDescSkills_eq, applyPrefTitle_eq,
    applyPrefLocation_eq, applyExperience_eq, applyRecency_eq, applyRemote_eq]
  cases h1 : (matchingSkills us j).isEmpty <;>
    cases h2 : (skillsInTitle us j).isEmpty <;>
      simp [h1, h2, List.append_assoc]

/-- Every rule weight except the remote bonus is a multiple of 5, so every
reachable score has residue 0 or 3 mod 5 (in particular 87, where Python's
float percentage would differ from the exact floor, is unreachable). -/
theorem score_mod_five (us ut ul : List String) (ue : String) (j : Job) :
    (scoreJob us ut ul ue j).1 % 5 = 0 ∨ (scoreJob us ut ul ue j).1 % 5 = 3 := by
  rw [scoreJob_eq]
  show ruleScore us ut ul ue j % 5 = 0 ∨ ruleScore us ut ul ue j % 5 = 3
  unfold ruleScore recencyScore
  cases h : j.days_old <;> simp only [h] <;> split_ifs <;> omega

theorem mem_insertByScore {x a : RecEntry} {l : List RecEntry} :
    x ∈ insertByScore a l ↔ x = a ∨ x ∈ l := by
  induction l with
  | nil => simp [insertByScore]
  | cons y ys ih =>
    unfold insertByScore
    split
    · simp
    · simp [ih]
      tauto

theorem length_insertByScore (a : RecEntry) (l : List RecEntry) :
    (insertByScore a l).length = l.length + 1 := by
  induction l with
  | nil => rfl
  | cons y ys ih =>
    unfold insertByScore
    split
    · simp
    · simp [ih]

theorem mem_sortByScoreDesc {x : RecEntry} {l : List RecEntry} :
    x ∈ sortByScoreDesc l ↔ x ∈ l := by
  induction l with
  | nil => simp [sortByScoreDesc]
  | cons y ys ih =>
    unfold sortByScoreDesc
    rw [mem_insertByScore]
    simp [ih]

theorem length_sortByScoreDesc (l : List RecEntry) :
    (sortByScoreDesc l).length = l.length := by
  induction l with
  | nil => rfl
  | cons y ys ih =>
    unfold sortByScoreDesc
    rw [length_insertByScore, ih, List.length_cons]

/-- Characterization of the scored-and-filtered list: an entry is present
exactly when some candidate job reached score 10, and the entry then
carries that job's score, percentage and truncated reasons. -/
theorem mem_scoredJobs {us ut ul : List String} {ue : String}
    {jobs : List Job} {e : RecEntry} :
    e ∈ scoredJobs us ut ul ue jobs ↔
      ∃ j ∈ jobs, 10 ≤ (scoreJob us ut ul ue j).1 ∧
        e = ⟨j, (scoreJob us ut ul ue j).1,
             matchPercentage (scoreJob us ut ul ue j).1,
             (scoreJob us ut ul ue j).2.take 4⟩ := by
  unfold scoredJobs
  simp only [List.mem_filterMap]
  constructor
  · rintro ⟨j, hj, hf⟩
    refine ⟨j, hj, ?_⟩
    by_cases h : 10 ≤ (scoreJob us ut ul ue j).1
    · simp only [h, if_pos, Option.some.injEq] at hf
      exact ⟨h, hf.symm⟩
    · simp [h] at hf
  · rintro ⟨j, hj, h, he⟩
    exact ⟨j, hj, by simp [h, he]⟩

theorem isPrefixOf_eq_true_iff {l h : List Char} :
    l.isPrefixOf h = true ↔ ∃ t, h = l ++ t := by
  induction l generalizing h with
  | nil => simp [List.isPrefixOf]
  | cons a l ih =>
    cases h with
    | nil => simp [List.isPrefixOf]
    | cons b t =>
      simp only [List.isPrefixOf, Bool.and_eq_true, beq_iff_eq, ih, List.cons_append,
        List.cons.injEq]
      constructor
      · rintro ⟨rfl, u, rfl⟩
        exact ⟨u, rfl, rfl⟩
      · rintro ⟨u, rfl, rfl⟩
        exact ⟨rfl, u, rfl⟩

/-- `containsSub` is exactly substring occurrence. -/
theorem containsSub_iff {hay needle : List Char} :
    containsSub hay needle = true ↔ ∃ p q, hay = p ++ needle ++ q := by
  induction hay with
  | nil =>
    simp only [containsSub, List.isEmpty_iff]
    constructor
    · rintro rfl
      exact ⟨[], [], rfl⟩
    · rintro ⟨p, q, hpq⟩
      rcases List.append_eq_nil.mp hpq.symm with ⟨h1, h2⟩
      exact (List.append_eq_nil.mp h1).2
  | cons c t ih =>
    simp only [containsSub, Bool.or_eq_true, isPrefixOf_eq_true_iff, ih]
    constructor
    · rintro (⟨u, hu⟩ | ⟨p, q, rfl⟩)
      · exact ⟨[], u, by simpa using hu⟩
      · exact ⟨c :: p, q, rfl⟩
    · rintro ⟨p, q, hpq⟩
      cases p with
      | nil =>
        exact Or.inl ⟨q, by simpa using hpq⟩
      | cons d p' =>
        simp only [List.cons_append, List.cons.injEq] at hpq
        exact Or.inr ⟨p', q, hpq.2⟩

/-- The Python `in` test on strings is plain substring containment on the
underlying character sequences. -/
theorem strIn_iff {needle hay : String} :
    strIn needle hay = true ↔ ∃ p q, hay.data = p ++ needle.data ++ q :=
  containsSub_iff

theorem mem_foldl_join (x : String) :
    ∀ (l : List String) (acc : String),
      ((∃ pr po, acc.data = pr ++ x.data ++ po) ∨ x ∈ l) →
      ∃ pr po, (l.foldl (fun a y => a ++ " " ++ y) acc).data = pr ++ x.data ++ po := by
  intro l
  induction l with
  | nil =>
    intro acc h
    rcases h with h | h
    · simpa using h
    · cases h
  | cons y ys ih =>
    intro acc h
    rw [List.foldl_cons]
    apply ih
    rcases h with ⟨pr, po, hd⟩ | hmem
    · exact Or.inl ⟨pr, po ++ (' ' :: y.data), by
        simp [String.data_append, hd]⟩
    · rcases List.mem_cons.mp hmem with rfl | hmem'
      · exact Or.inl ⟨acc.data ++ [' '], [], by simp [String.data_append]⟩
      · exact Or.inr hmem'

/-- Every part occurs verbatim inside the space-joined text. -/
theorem strIn_joinSpace {x : String} {parts : List String} (hx : x ∈ parts) :
    strIn x (joinSpace parts) = true := by
  rw [strIn_iff]
  cases parts with
  | nil => cases hx
  | cons p ps =>
    unfold joinSpace
    apply mem_foldl_join
    rcases List.mem_cons.mp hx with rfl | h
    · exact Or.inl ⟨[], [], by simp⟩
    · exact Or.inr h

/-- The reason list actually accumulated is a sublist of the eight candidate
reasons in rule-evaluation order. -/
theorem ruleReasons_sublist_allReasons (us ut ul : List String) (ue : String) (j : Job) :
    (ruleReasons us ut ul ue j).Sublist (allReasons us ut ul ue j) := by
  have hsplit : allReasons us ut ul ue j =
      [skillReasonStr us j] ++ [titleSkillReasonStr us j] ++ [descReasonStr us j] ++
        [prefTitleReasonStr ((prefTitleHit ut j).getD "")] ++
        [prefLocReasonStr ((prefLocHit ul j).getD "")] ++ [expReasonStr j] ++
        [recencyReason (j.days_old.getD 0)] ++ [remoteReasonStr] := rfl
  rw [hsplit]
  unfold ruleReasons
  refine List.Sublist.append (List.Sublist.append (List.Sublist.append
    (List.Sublist.append (List.Sublist.append (List.Sublist.append
      (List.Sublist.append ?_ ?_) ?_) ?_) ?_) ?_) ?_) ?_
  · split <;> simp
  · split <;> simp
  · split <;> simp
  · cases h : prefTitleHit ut j <;> simp [h]
  · cases h : prefLocHit ul j <;> simp [h]
  · split <;> simp
  · cases h : j.days_old with
    | none => simp [h]
    | some d =>
      show (if d ≤ 7 then [recencyReason d] else []).Sublist [recencyReason d]
      split <;> simp
  · split <;> simp

/-- C1: for user skills python and sql against a job with skills python and
django, title "Python Engineer", remote, posted 2 days ago and no title or
location preferences, the rule scorer yields exactly 58 points (25 for the
single skill-set match, 15 for "python" in the title, 10 recency, 8 remote)
and match percentage 38. -/
theorem c1_scoring_scenario :
    (scoreJob ["python", "sql"] [] [] "" jobPy).1 = 58 ∧
    matchPercentage (scoreJob ["python", "sql"] [] [] "" jobPy).1 = 38 ∧
    (matchingSkills ["python", "sql"] jobPy).length * 25 = 25 ∧
    (skillsInTitle ["python", "sql"] jobPy).length * 15 = 15 ∧
    recencyScore jobPy = 10 ∧
    (if jobPy.remote then 8 else 0) = 8 := by
  refine ⟨?_, ?_, ?_, ?_, ?_, ?_⟩ <;> decide

/-- C2 counterexample: for user skill python and a job whose declared
skills and title both contain python, the title rule still adds its 15
points on top of the 25 skill-set points (total 40, not the 25 the claim's
no-double-count rule would give). -/
theorem c2_counterexample :
    "python" ∈ matchingSkills ["python"] jobTitleOverlap ∧
    "python" ∈ skillsInTitle ["python"] jobTitleOverlap ∧
    (scoreJob ["python"] [] [] "" jobTitleOverlap).1 = 40 ∧
    (scoreJob ["python"] [] [] "" jobTitleOverlap).1 ≠ 25 := by
  refine ⟨?_, ?_, ?_, ?_⟩ <;> decide

/-- C2 (amended): every user skill occurring in the job title earns +15
regardless of whether it was already counted by the skill-set rule — the
title list is a plain filter of the user skills with no exclusion, and the
total score always contains 15 points per such skill; the title-rule
reason lists at most 2 skills. -/
theorem c2_amended_title_rule_no_exclusion (us ut ul : List String) (ue : String) (j : Job) :
    (scoreJob us ut ul ue j).1 =
      (matchingSkills us j).length * 25 +
        (skillsInTitle us j).length * 15 +
        (if descCond us j then (skillsInDescription us j).length * 5 else 0) +
        (if (prefTitleHit ut j).isSome then 30 else 0) +
        (if (prefLocHit ul j).isSome then 20 else 0) +
        (if expCond ue j then 15 else 0) +
        recencyScore j +
        (if j.remote then 8 else 0) ∧
    (∀ s, s ∈ skillsInTitle us j ↔ s ∈ us ∧ strIn s (pyLower j.title) = true) ∧
    (∃ listed, listed = String.intercalate ", " ((skillsInTitle us j).take 2) ∧
      titleSkillReasonStr us j = s!"✓ Skills in job title: {listed}") ∧
    ((skillsInTitle us j).take 2).length ≤ 2 := by
  refine ⟨?_, ?_, ?_, ?_⟩
  · rw [scoreJob_eq]
    rfl
  · intro s
    simp [skillsInTitle, List.mem_filter]
  · exact ⟨_, rfl, rfl⟩
  · apply List.length_take_le

/-- C10: the in-title and in-description skill tests are plain substring
containment on the lower-cased text, not whole-word matching: membership in
`skillsInTitle` is exactly occurrence of the skill anywhere in the
lower-cased title, `strIn` is exactly substring occurrence, and the skill
"java" scores the 15 title points against a job titled
"JavaScript Developer" whose declared skills share nothing with the user. -/
theorem c10_substring_containment :
    (∀ (s : String) (us : List String) (j : Job),
       s ∈ skillsInTitle us j ↔ s ∈ us ∧ strIn s (pyLower j.title) = true) ∧
    (∀ needle hay : String,
       strIn needle hay = true ↔ ∃ p q, hay.data = p ++ needle.data ++ q) ∧
    matchingSkills ["java"] jobJS = [] ∧
    skillsInTitle ["java"] jobJS = ["java"] ∧
    (scoreJob ["java"] [] [] "" jobJS).1 = 15 := by
  refine ⟨?_, ?_, ?_, ?_, ?_⟩
  · intro s us j
    simp [skillsInTitle, List.mem_filter]
  · intro needle hay
    exact strIn_iff
  · decide
  · decide
  · decide

/-- Shape of every successful response: the reported total always equals
the length of the returned list, and on the main path the list is the
sorted-and-truncated scored list of the fetched pool. -/
theorem get_recommendations_ok_inv (q : RecommendationQuery)
    (fu : String → Option User) (jobs : List Job) (uid : String)
    (prof : UserProfileOut) (recs : List RecEntry) (tm : Nat) (msg : String)
    (h : get_recommendations q fu jobs = .ok uid prof recs tm msg) :
    tm = recs.length ∧
      (recs = [] ∨
        ∃ user, q.user_id = some uid ∧ fu uid = some user ∧
          recs = (sortByScoreDesc (scoredJobs (userSkillsNorm user) (userTitlesNorm user)
            (userLocationsNorm user) (userExpLevelNorm user) jobs)).take q.limit) := by
  unfold get_recommendations at h
  rcases hq : q.user_id with _ | uid'
  · rw [hq] at h
    exact absurd h (by simp)
  · simp only [hq] at h
    rcases hu : fu uid' with _ | user
    · rw [hu] at h
      exact absurd h (by simp)
    · simp only [hu] at h
      split_ifs at h with h1 h2 h3
      · simp only [RecResponse.ok.injEq] at h
        obtain ⟨-, -, hrecs, htm, -⟩ := h
        exact ⟨by rw [← htm, ← hrecs]; rfl, Or.inl hrecs.symm⟩
      · simp only [RecResponse.ok.injEq] at h
        obtain ⟨-, -, hrecs, htm, -⟩ := h
        exact ⟨by rw [← htm, ← hrecs]; rfl, Or.inl hrecs.symm⟩
      · simp only [RecResponse.ok.injEq] at h
        obtain ⟨huid, -, hrecs, htm, -⟩ := h
        subst huid
        exact ⟨by rw [← htm, ← hrecs], Or.inr ⟨user, rfl, hu, hrecs.symm⟩⟩
      · simp only [RecResponse.ok.injEq] at h
        obtain ⟨huid, -, hrecs, htm, -⟩ := h
        subst huid
        exact ⟨by rw [← htm, ← hrecs], Or.inr ⟨user, rfl, hu, hrecs.symm⟩⟩

/-- C3 counterexample: with two candidates above the threshold and limit 1,
the endpoint reports total_matches = 1 (the truncated length), not the
pre-truncation count 2 the claim requires. -/
theorem c3_counterexample :
    get_recommendations qLimit1 findUserEg [jobPy, jobTitleOverlap] =
      .ok "u1" profPy [entryPy] 1 "Found 1 jobs matching your profile" ∧
    (scoredJobs (userSkillsNorm userPy) (userTitlesNorm userPy) (userLocationsNorm userPy)
      (userExpLevelNorm userPy) [jobPy, jobTitleOverlap]).length = 2 ∧
    ¬((1 : Nat) = 2) := by
  refine ⟨by decide, by decide, by decide⟩

/-- C3 (amended): the reported total-match count equals the length of the
already-truncated recommendations list (line 227 runs after the line 212
truncation), so it never exceeds the caller's limit or the list length. -/
theorem c3_amended_total_matches (q : RecommendationQuery)
    (fu : String → Option User) (jobs : List Job) (uid : String)
    (prof : UserProfileOut) (recs : List RecEntry) (tm : Nat) (msg : String)
    (h : get_recommendations q fu jobs = .ok uid prof recs tm msg) :
    tm = recs.length ∧ recs.length ≤ q.limit := by
  obtain ⟨htm, hshape⟩ := get_recommendations_ok_inv q fu jobs uid prof recs tm msg h
  refine ⟨htm, ?_⟩
  rcases hshape with rfl | ⟨user, -, -, rfl⟩
  · simp
  · exact List.length_take_le _ _

theorem c3_amended_total_matches_witness :
    (1 : Nat) = [entryPy].length ∧ [entryPy].length ≤ qLimit1.limit := by
  have h : get_recommendations qLimit1 findUserEg [jobPy, jobTitleOverlap] =
      .ok "u1" profPy [entryPy] 1 "Found 1 jobs matching your profile" := by decide
  exact c3_amended_total_matches qLimit1 findUserEg [jobPy, jobTitleOverlap] "u1" profPy
    [entryPy] 1 "Found 1 jobs matching your profile" h

/-- C4 counterexample: a user-id request for an existing user who has no
resume embedding does not fail with a PreconditionFailed-style error — here
it returns a zero-result success with a guidance message. -/
theorem c4_counterexample :
    userEmpty.resume_embedding = none ∧
    get_recommendations qEmptyUser findUserEg [jobPy] =
      .ok "u2" ⟨[], [], [], none⟩ [] 0
        "Please complete your profile with skills, job titles, and preferred locations." := by
  exact ⟨rfl, by decide⟩

/-- C4 (amended): a user-id recommendation request fails with 404 NotFound
when the user does not exist; when the user exists the request is always
served by the rule-based path and never raises an HTTP error — there is no
similarity path and no PreconditionFailed check on `resume_embedding`. -/
theorem c4_amended_no_similarity_precondition (q : RecommendationQuery)
    (fu : String → Option User) (jobs : List Job) (uid : String)
    (hq : q.user_id = some uid) :
    (fu uid = none → get_recommendations q fu jobs = .httpError 404 "User not found") ∧
    (∀ user, fu uid = some user →
      ∀ st d, get_recommendations q fu jobs ≠ .httpError st d) := by
  constructor
  · intro hnone
    unfold get_recommendations
    simp only [hq, hnone]
  · intro user huser st d
    unfold get_recommendations
    simp only [hq, huser]
    split_ifs <;> simp

theorem c4_amended_no_similarity_precondition_witness :
    get_recommendations qBadUser findUserEg [] = .httpError 404 "User not found" :=
  (c4_amended_no_similarity_precondition qBadUser findUserEg [] "nobody" rfl).1 (by decide)

/-- C5: a candidate job yields an entry in the scored list (lines 182-206,
before the limit truncation) iff its total score is at least 10; a job with
no skill, title, location, experience, recency or remote signal scores 0
and is excluded entirely. -/
theorem c5_inclusion_threshold (us ut ul : List String) (ue : String)
    (jobs : List Job) (j : Job) (hj : j ∈ jobs) :
    ((∃ e ∈ scoredJobs us ut ul ue jobs, e.job = j) ↔ 10 ≤ (scoreJob us ut ul ue j).1) ∧
    (matchingSkills us j = [] → skillsInTitle us j = [] → skillsInDescription us j = [] →
      prefTitleHit ut j = none → prefLocHit ul j = none → expCond ue j = false →
      recencyScore j = 0 → j.remote = false →
      (scoreJob us ut ul ue j).1 = 0 ∧
        ¬∃ e ∈ scoredJobs us ut ul ue jobs, e.job = j) := by
  have hiff : (∃ e ∈ scoredJobs us ut ul ue jobs, e.job = j) ↔
      10 ≤ (scoreJob us ut ul ue j).1 := by
    constructor
    · rintro ⟨e, he, hej⟩
      obtain ⟨j', hj', hs, rfl⟩ := mem_scoredJobs.mp he
      simp only at hej
      rwa [hej] at hs
    · intro hs
      exact ⟨_, mem_scoredJobs.mpr ⟨j, hj, hs, rfl⟩, rfl⟩
  refine ⟨hiff, ?_⟩
  intro h1 h2 h3 h4 h5 h6 h7 h8
  have hscore : (scoreJob us ut ul ue j).1 = 0 := by
    rw [scoreJob_eq]
    show ruleScore us ut ul ue j = 0
    unfold ruleScore descCond
    simp [h1, h2, h3, h4, h5, h6, h7, h8]
  refine ⟨hscore, fun hex => ?_⟩
  have h10 := hiff.mp hex
  rw [hscore] at h10
  omega

theorem c5_inclusion_threshold_witness :
    jobNone ∈ [jobNone] ∧
    ((∃ e ∈ scoredJobs ["python"] [] [] "" [jobNone], e.job = jobNone) ↔
      10 ≤ (scoreJob ["python"] [] [] "" jobNone).1) ∧
    ((scoreJob ["python"] [] [] "" jobNone).1 = 0 ∧
      ¬∃ e ∈ scoredJobs ["python"] [] [] "" [jobNone], e.job = jobNone) := by
  have h := c5_inclusion_threshold ["python"] [] [] "" [jobNone] jobNone (by decide)
  exact ⟨by decide, h.1,
    h.2 (by decide) (by decide) (by decide) (by decide) (by decide) (by decide)
      (by decide) (by decide)⟩

/-- C6: every emitted recommendation has
match_percentage = min(100, floor(score*100/150)); 150 maps to 100, 75 maps
to 50, and every score of at least 150 is capped at 100 (the 150 ceiling is
the fixed constant in `matchPercentage`). -/
theorem c6_percentage_formula (q : RecommendationQuery)
    (fu : String → Option User) (jobs : List Job) (uid : String)
    (prof : UserProfileOut) (recs : List RecEntry) (tm : Nat) (msg : String)
    (e : RecEntry)
    (h : get_recommendations q fu jobs = .ok uid prof recs tm msg)
    (he : e ∈ recs) :
    e.match_percentage = min (e.match_score * 100 / 150) 100 ∧
    matchPercentage 150 = 100 ∧ matchPercentage 75 = 50 ∧
    (∀ s, 150 ≤ s → matchPercentage s = 100) := by
  have hmain : e.match_percentage = min (e.match_score * 100 / 150) 100 := by
    obtain ⟨-, hshape⟩ := get_recommendations_ok_inv q fu jobs uid prof recs tm msg h
    rcases hshape with rfl | ⟨user, -, -, rfl⟩
    · cases he
    · have he2 := mem_sortByScoreDesc.mp (List.take_subset _ _ he)
      obtain ⟨j, hj, hs, rfl⟩ := mem_scoredJobs.mp he2
      rfl
  refine ⟨hmain, by decide, by decide, ?_⟩
  intro s hs
  unfold matchPercentage
  have h1 : 100 * 150 ≤ s * 100 := by
    have := Nat.mul_le_mul_right 100 hs
    omega
  have h2 : 100 ≤ s * 100 / 150 :=
    (Nat.le_div_iff_mul_le (by norm_num)).mpr h1
  exact Nat.min_eq_right h2

theorem c6_percentage_formula_witness :
    entryPy.match_percentage = min (entryPy.match_score * 100 / 150) 100 := by
  have h : get_recommendations qLimit10 findUserEg [jobPy] =
      .ok "u1" profPy [entryPy] 1 "Found 1 jobs matching your profile" := by decide
  exact (c6_percentage_formula qLimit10 findUserEg [jobPy] "u1" profPy [entryPy] 1
    "Found 1 jobs matching your profile" entryPy h (by decide)).1

/-- C7: every emitted recommendation carries at most 4 reasons, and the
reasons appear as a sublist of the eight candidate reasons in exact
rule-evaluation order: skill-set match, skills-in-title,
skills-in-description, preferred-title, preferred-location,
experience-level, recency, remote. -/
theorem c7_reasons_order (q : RecommendationQuery)
    (fu : String → Option User) (jobs : List Job) (uid : String) (user : User)
    (prof : UserProfileOut) (recs : List RecEntry) (tm : Nat) (msg : String)
    (e : RecEntry)
    (hu : fu uid = some user)
    (h : get_recommendations q fu jobs = .ok uid prof recs tm msg)
    (he : e ∈ recs) :
    e.match_reasons.length ≤ 4 ∧
    e.match_reasons.Sublist (allReasons (userSkillsNorm user) (userTitlesNorm user)
      (userLocationsNorm user) (userExpLevelNorm user) e.job) := by
  obtain ⟨-, hshape⟩ := get_recommendations_ok_inv q fu jobs uid prof recs tm msg h
  rcases hshape with rfl | ⟨user', -, hu', rfl⟩
  · cases he
  · rw [hu] at hu'
    injection hu' with huser
    subst huser
    have he2 := mem_sortByScoreDesc.mp (List.take_subset _ _ he)
    obtain ⟨j, hj, hs, rfl⟩ := mem_scoredJobs.mp he2
    constructor
    · exact List.length_take_le _ _
    · refine List.Sublist.trans (List.take_sublist _ _) ?_
      have hsnd : (scoreJob (userSkillsNorm user) (userTitlesNorm user)
          (userLocationsNorm user) (userExpLevelNorm user) j).2 =
          ruleReasons (userSkillsNorm user) (userTitlesNorm user)
            (userLocationsNorm user) (userExpLevelNorm user) j := by
        rw [scoreJob_eq]
      rw [hsnd]
      exact ruleReasons_sublist_allReasons _ _ _ _ _

theorem c7_reasons_order_witness :
    entryPy.match_reasons.length ≤ 4 ∧
    entryPy.match_reasons.Sublist (allReasons (userSkillsNorm userPy) (userTitlesNorm userPy)
      (userLocationsNorm userPy) (userExpLevelNorm userPy) entryPy.job) := by
  have h : get_recommendations qLimit10 findUserEg [jobPy] =
      .ok "u1" profPy [entryPy] 1 "Found 1 jobs matching your profile" := by decide
  exact c7_reasons_order qLimit10 findUserEg [jobPy] "u1" userPy profPy [entryPy] 1
    "Found 1 jobs matching your profile" entryPy (by decide) h (by decide)

/-- C8: a rule-based request for an existing user whose normalized skills,
preferred titles and preferred locations are all empty returns a successful
empty result set (no recommendations, zero total matches) with the guidance
message, not an error. -/
theorem c8_empty_profile_guidance (q : RecommendationQuery)
    (fu : String → Option User) (jobs : List Job) (uid : String) (user : User)
    (hq : q.user_id = some uid) (hu : fu uid = some user)
    (hs : userSkillsNorm user = []) (ht : userTitlesNorm user = [])
    (hl : userLocationsNorm user = []) :
    get_recommendations q fu jobs =
      .ok uid ⟨[], [], [], none⟩ [] 0
        "Please complete your profile with skills, job titles, and preferred locations." := by
  unfold get_recommendations
  simp only [hq, hu, hs, ht, hl]
  simp

theorem c8_empty_profile_guidance_witness :
    get_recommendations qEmptyUser findUserEg [jobPy] =
      .ok "u2" ⟨[], [], [], none⟩ [] 0
        "Please complete your profile with skills, job titles, and preferred locations." :=
  c8_empty_profile_guidance qEmptyUser findUserEg [jobPy] "u2" userEmpty rfl (by decide)
    rfl rfl rfl

/-- C9 counterexample: a user profile with experience_years present and
equal to 0 synthesizes to a text that omits the "Experience: 0 years"
segment (integer 0 is falsy in the `if user_data.get(...)` guard). -/
theorem c9_counterexample :
    userExp0.experience_years = some 0 ∧
    create_user_profile_text userExp0 = "Skills: python" ∧
    strIn "Experience: 0 years" (create_user_profile_text userExp0) = false := by
  refine ⟨rfl, by decide, by decide⟩

/-- C9 (amended): the "Experience: N years" segment appears in the
synthesized profile text when experience_years is present and non-zero;
a present value of 0 is treated exactly like an absent field (the
synthesized text is identical). -/
theorem c9_amended_zero_years_omitted :
    (∀ (u : User) (n : Int), u.experience_years = some n → n ≠ 0 →
      strIn s!"Experience: {n} years" (create_user_profile_text u) = true) ∧
    (∀ u : User, u.experience_years = some 0 →
      create_user_profile_text u =
        create_user_profile_text { u with experience_years := none }) := by
  constructor
  · intro u n hn h0
    apply strIn_joinSpace
    unfold userProfileParts
    rw [hn]
    simp [h0]
  · intro u h0
    unfold create_user_profile_text userProfileParts
    rw [h0]
    simp

theorem c9_amended_zero_years_omitted_witness :
    strIn "Experience: 5 years" (create_user_profile_text userExp5) = true := by
  have h := c9_amended_zero_years_omitted.1 userExp5 5 rfl (by decide)
  have he : (s!"Experience: {(5 : Int)} years") = "Experience: 5 years" := by decide
  rw [he] at h
  exact h

end JobRec
